import Mathlib

/-!
Verification of the CalmOrbIoT streaming core: a shallow embedding of
`RaspberryPi/Services/ap_manager.py` (the network-mode manager) and
`RaspberryPi/Services/streaming_service.py` (the streaming-session
orchestrator), together with the relevant interface behaviour of
`mjpeg_server.py`, `audio_server.py` and `connectivity_server.py`.

External effects (shell commands, file writes, component stop calls) are
modelled by environment records that fix, per invocation, the pair returned
by `_run_command_async` and whether an awaited call raised an exception;
the embedded functions reproduce the source's control flow over those
outcomes.  Each operation additionally returns a trace of the externally
visible actions it performed, so that frame properties ("no OS action was
performed") and ordering properties can be stated.
-/

namespace CalmOrb

/-! ## Settings (`RaspberryPi/Setting/settings.py`) -/

def STREAM_AP_SSID : String := "CalmOrb-LIVE"

/-- Fixed development password (`settings.py` line 227); nonempty. -/
def STREAM_AP_PASSWORD : String := "calmorb123"

def STREAM_AP_IP : String := "192.168.4.1"

def STREAM_TIMEOUT : Nat := 7200

def STREAM_CLIENT_TIMEOUT : Nat := 3600

def STREAM_WIFI_RESTORE_RETRIES : Nat := 3

/-! ## Basic data model (`ap_manager.py`) -/

/-- The `APState` enum of `ap_manager.py`. -/
inductive APState where
  | CLIENT_MODE
  | AP_STARTING
  | AP_READY
  | AP_STOPPING
  | AP_FAILED
deriving DecidableEq, Repr

/-- The `WiFiCredentials` dataclass of `ap_manager.py`. -/
structure WiFiCredentials where
  ssid : String
  password : String
  key_mgmt : String := "WPA-PSK"
deriving DecidableEq, Repr

/-- Mutable fields of `APManager` that the claims depend on. -/
structure APMState where
  state : APState
  saved_credentials : Option WiFiCredentials
  ap_password : String
deriving DecidableEq, Repr

/-- The file-system locations the manager reads and writes:
`/etc/wpa_supplicant/wpa_supplicant.conf` (read only),
`/tmp/wifi_backup.conf`, `/tmp/hostapd_stream.conf`,
`/tmp/dnsmasq_stream.conf`.  `none` means the file does not exist. -/
structure World where
  wpaConf : Option String
  wifiBackup : Option String
  hostapdConf : Option String
  dnsmasqConf : Option String
deriving DecidableEq, Repr

/-- The `(success, output)` pair returned by `_run_command_async`. -/
structure CmdResult where
  ok : Bool
  out : String
deriving DecidableEq, Repr

/-- Truthiness of `output.strip()` in Python: the string contains some
non-whitespace character. -/
def truthyStripped (s : String) : Bool :=
  s.toList.any (fun c => !c.isWhitespace)

/-! ## Credential parsing (`save_wifi_credentials`, lines 142-184)

The source parses the supplicant configuration with
`re.search(r'ssid="([^"]+)"', content)` and likewise for `psk`.  The
functions below reproduce that search over the character list: scan left to
right for the first position where `key="` is followed by at least one
non-quote character and a closing quote. -/

/-- If `key` is a prefix of `l`, return the remainder of `l`. -/
def matchAt (key l : List Char) : Option (List Char) :=
  match key, l with
  | [], rest => some rest
  | _ :: _, [] => none
  | k :: ks, c :: cs => if c = k then matchAt ks cs else none

/-- Characters before the next double quote, or `none` if no quote follows. -/
def untilQuote : List Char → Option (List Char)
  | [] => none
  | c :: cs => if c = '\"' then some [] else (untilQuote cs).map (c :: ·)

/-- First match of the regex `key"([^"]+)"` scanning left to right. -/
def scanQuoted (key : List Char) : List Char → Option (List Char)
  | [] => none
  | c :: cs =>
    match matchAt key (c :: cs) with
    | some rest =>
      match untilQuote rest with
      | some v => if v.isEmpty then scanQuoted key cs else some v
      | none => scanQuoted key cs
    | none => scanQuoted key cs

/-- Value of `re.search(key + '="([^"]+)"', content)`. -/
def extractQuoted (key content : String) : Option String :=
  (scanQuoted (key.toList ++ ['=', '\"']) content.toList).map List.asString

/-- The `{ssid, password}` pair `save_wifi_credentials` would capture from
a supplicant configuration file (`none` when the file is absent or holds
no `ssid="..."` entry). -/
def parseWpaCredentials (conf : Option String) : Option WiFiCredentials :=
  match conf with
  | none => none
  | some content =>
    match extractQuoted ("ssid") content with
    | none => none
    | some ssid =>
      some { ssid := ssid
             password := (extractQuoted ("psk") content).getD ("")
             key_mgmt := "WPA-PSK" }

/-- Embeds `APManager.save_wifi_credentials` (lines 142-184).  `raises` says
whether one of the file operations raised (caught by the handler at line
182, which returns `False`).  Absent file and absent `ssid` entry are both
trivial successes.  On a successful parse the pair is stored in memory and
mirrored to `/tmp/wifi_backup.conf`. -/
def save_wifi_credentials (raises : Bool) (w : World) (s : APMState) :
    World × APMState × Bool :=
  if raises then (w, s, false)
  else
    match parseWpaCredentials w.wpaConf with
    | none => (w, s, true)
    | some creds =>
      let backupText :=
        "ssid=" ++ creds.ssid ++ "\npassword=" ++ creds.password ++ "\n"
      ({ w with wifiBackup := some backupText },
       { s with saved_credentials := some creds },
       true)

/-! ## `restore_wifi` (lines 375-444)

Each retry attempt runs `nmcli`, `ip addr flush`, `systemctl start
wpa_supplicant` and `dhclient` — all of whose returned pairs the source
ignores — and then the check `ip addr show wlan0 | grep 'inet '`
(`check=False`).  The per-attempt `except Exception` handler (line 422)
catches a raise from any of those awaits, so an attempt is summarised by
whether some await raised and, if not, by the pair the check returned.
The hard fallback (lines 427-439) ignores every command's returned pair;
only a raise (caught at line 441) is observable. -/

structure AttemptEnv where
  raised : Bool
  check : CmdResult
deriving Repr

structure FallbackEnv where
  raised : Bool
deriving Repr

structure RestoreEnv where
  attempt : Nat → AttemptEnv
  fallback : FallbackEnv

/-- An attempt reaches `return True` iff nothing raised and the check
command returned `success` with output that strips to nonempty
(line 414: `if success and output.strip()`). -/
def attemptConnects (a : AttemptEnv) : Bool :=
  !a.raised && a.check.ok && truthyStripped a.check.out

/-- Index of the first connecting attempt among `fuel` attempts starting
at index `start`, mirroring the `for attempt in range(retries)` loop. -/
def firstSuccess (env : Nat → AttemptEnv) : Nat → Nat → Option Nat
  | _, 0 => none
  | start, fuel + 1 =>
    if attemptConnects (env start) then some start
    else firstSuccess env (start + 1) fuel

/-- Result of `restore_wifi`, instrumented with how many retry attempts
were executed and whether the hard fallback ran. -/
structure RestoreRes where
  apm : APMState
  ok : Bool
  attemptsRun : Nat
  fallbackRun : Bool
deriving Repr

/-- Embeds `APManager.restore_wifi` (lines 375-444). -/
def restore_wifi (env : RestoreEnv) (retries : Nat) (s : APMState) : RestoreRes :=
  match firstSuccess env.attempt 0 retries with
  | some i =>
    { apm := { s with state := APState.CLIENT_MODE }
      ok := true, attemptsRun := i + 1, fallbackRun := false }
  | none =>
    if env.fallback.raised then
      { apm := { s with state := APState.AP_FAILED }
        ok := false, attemptsRun := retries, fallbackRun := true }
    else
      { apm := { s with state := APState.CLIENT_MODE }
        ok := true, attemptsRun := retries, fallbackRun := true }

/-! ## `start_ap` (lines 254-335) -/

/-- Environment for one `start_ap` invocation.  The commands of steps 2-5
(nmcli, killing the supplicant and stray daemons, static IP assignment)
have their returned pairs ignored by the source and cannot raise
(`_run_command_async` catches `Exception`), so they do not appear.
`hostapdCmd`/`dnsmasqCmd` are the pairs returned for the two launches
(`check=True`), `pgrep` the pair for the liveness check (`check=False`).
`configWriteOk` flags say whether `_create_hostapd_config` /
`_create_dnsmasq_config` succeeded (each catches its own exceptions and
returns a bool). -/
structure StartApEnv where
  hostapdConfigOk : Bool
  dnsmasqConfigOk : Bool
  hostapdCmd : CmdResult
  dnsmasqCmd : CmdResult
  pgrep : CmdResult
  genPassword : String
  restore : RestoreEnv

structure StartApRes where
  world : World
  apm : APMState
  ok : Bool
  restoreRun : Bool

/-- Password chosen by `_create_hostapd_config` (lines 189-193): the
configured `STREAM_AP_PASSWORD` if nonempty, otherwise a generated one. -/
def effPassword (env : StartApEnv) : String :=
  if STREAM_AP_PASSWORD ≠ "" then STREAM_AP_PASSWORD else env.genPassword

/-- Text written to `/tmp/hostapd_stream.conf`. -/
def hostapdConfText (pw : String) : String :=
  "interface=wlan0\ndriver=nl80211\nssid=" ++ STREAM_AP_SSID ++
  "\nhw_mode=g\nchannel=6\nwpa=2\nwpa_passphrase=" ++ pw ++
  "\nwpa_key_mgmt=WPA-PSK\nrsn_pairwise=CCMP\n"

/-- Text written to `/tmp/dnsmasq_stream.conf`. -/
def dnsmasqConfText : String :=
  "interface=wlan0\ndhcp-range=192.168.4.10,192.168.4.50,255.255.255.0,24h\naddress=/#/" ++
  STREAM_AP_IP ++ "\nno-resolv\nno-poll\n"

/-- The `except` handler of `start_ap` (lines 330-335): transition to
`AP_FAILED`, invoke `restore_wifi`, return failure. -/
def startApFail (env : StartApEnv) (retries : Nat) (w : World) (s : APMState) :
    StartApRes :=
  let r := restore_wifi env.restore retries { s with state := APState.AP_FAILED }
  { world := w, apm := r.apm, ok := false, restoreRun := true }

/-- Embeds `APManager.start_ap` (lines 254-335).  The guard at line 262 makes a
call in `AP_READY` a no-op success; otherwise the state becomes
`AP_STARTING` and the fatal steps are, in order: writing the hostapd
configuration, writing the dnsmasq configuration, launching hostapd,
launching dnsmasq, and the `pgrep hostapd` liveness check. -/
def start_ap (env : StartApEnv) (retries : Nat) (w : World) (s : APMState) :
    StartApRes :=
  if s.state = APState.AP_READY then
    { world := w, apm := s, ok := true, restoreRun := false }
  else
    let s1 : APMState :=
      { s with state := APState.AP_STARTING, ap_password := effPassword env }
    if !env.hostapdConfigOk then startApFail env retries w s1
    else
      let w1 : World := { w with hostapdConf := some (hostapdConfText s1.ap_password) }
      if !env.dnsmasqConfigOk then startApFail env retries w1 s1
      else
        let w2 : World := { w1 with dnsmasqConf := some dnsmasqConfText }
        if !env.hostapdCmd.ok then startApFail env retries w2 s1
        else if !env.dnsmasqCmd.ok then startApFail env retries w2 s1
        else if !(env.pgrep.ok && truthyStripped env.pgrep.out) then
          startApFail env retries w2 s1
        else
          { world := w2, apm := { s1 with state := APState.AP_READY }
            ok := true, restoreRun := false }

/-! ## `stop_ap` (lines 337-373) -/

/-- Environment for `stop_ap`: the two `killall` commands run with
`check=False` and their pairs are ignored, so only a raise from one of the
awaited calls or from the config-file removal is observable; it is caught
by the handler at line 371, which returns `False`. -/
structure StopApEnv where
  raised : Bool
deriving Repr

structure StopApRes where
  world : World
  apm : APMState
  ok : Bool
deriving Repr

/-- Embeds `APManager.stop_ap` (lines 337-373).  In `CLIENT_MODE` it is a no-op
success; otherwise the state becomes `AP_STOPPING` (and stays there: this
function never sets `CLIENT_MODE`), the daemons are killed and the two
temporary configuration files removed. -/
def stop_ap (env : StopApEnv) (w : World) (s : APMState) : StopApRes :=
  if s.state = APState.CLIENT_MODE then
    { world := w, apm := s, ok := true }
  else
    let s1 : APMState := { s with state := APState.AP_STOPPING }
    if env.raised then { world := w, apm := s1, ok := false }
    else
      { world := { w with hostapdConf := none, dnsmasqConf := none }
        apm := s1, ok := true }

/-- Embeds `APManager.is_ap_active` (line 461). -/
def is_ap_active (s : APMState) : Bool :=
  s.state = APState.AP_READY

/-! ## Orchestrator data model (`streaming_service.py`) -/

/-- The `StreamState` enum (`streaming_service.py` lines 38-45). -/
inductive StreamState where
  | IDLE
  | PREPARING
  | READY
  | ACTIVE
  | STOPPING
  | ERROR
deriving DecidableEq, Repr

/-- The `IntEnum` numeric value of each state. -/
def StreamState.toNat : StreamState → Nat
  | .IDLE => 0
  | .PREPARING => 1
  | .READY => 2
  | .ACTIVE => 3
  | .STOPPING => 4
  | .ERROR => 5

/-- Mutable fields of `StreamingService` the claims depend on, together
with the `is_running` flags of the three owned servers. -/
structure SvcState where
  streamState : StreamState
  startTime : Nat
  errorMessage : String
  apm : APMState
  mjpegRunning : Bool
  audioRunning : Bool
  connRunning : Bool
deriving DecidableEq, Repr

/-- Externally visible actions of the orchestrator: synchronous
state-change notifications (fired by the `state` setter, lines 110-117,
only when the value changes) and the component/OS actions it performs. -/
inductive Ev where
  | stateChange (old new : StreamState)
  | cameraStart
  | saveCreds
  | apStart
  | connStart
  | mjpegStart
  | audioStart
  | cleanupRun
  | mjpegStop
  | audioStop
  | connStop
  | apStop
  | restoreWifi
deriving DecidableEq, Repr

/-- The `state` property setter (lines 110-117): mutate and notify only
when the new value differs. -/
def setState (s : SvcState) (ns : StreamState) : SvcState × List Ev :=
  if ns = s.streamState then (s, [])
  else ({ s with streamState := ns }, [Ev.stateChange s.streamState ns])

/-! ## `_cleanup` (lines 275-298)

`_cleanup` itself contains no exception handling.  Per the stop
implementations: `MJPEGServer.stop` (mjpeg_server.py lines 121-144) sets
`is_running = False` first, catches exceptions only around the per-client
`write_eof` calls, and lets a raise from `site.stop()`/`runner.cleanup()`
escape; `AudioStreamServer.stop` likewise sets `is_running = False` first
and lets a raise from closing the websocket server escape;
`ConnectivityServer.stop` wraps its whole body in `try/except Exception`
and so never raises, but an internal exception leaves its `is_running`
flag `True`; `stop_ap` and `restore_wifi` catch all their exceptions and
return booleans (which `_cleanup` ignores). -/

structure CleanupEnv where
  mjpegStopRaises : Bool
  audioStopRaises : Bool
  connStopRaises : Bool
  stopAp : StopApEnv
  restore : RestoreEnv

/-- Result of `_cleanup`; `raised = some msg` means an exception escaped
to the caller after the recorded partial execution. -/
structure CleanRes where
  world : World
  svc : SvcState
  evs : List Ev
  raised : Option String

/-- Step 4 of `_cleanup` (lines 293-298): if the AP is active, stop it and
restore the client connection.  Neither call raises; their returned
booleans are ignored. -/
def cleanupApBranch (env : CleanupEnv) (retries : Nat) (w : World)
    (s : SvcState) (acc : List Ev) : CleanRes :=
  if is_ap_active s.apm then
    let r1 := stop_ap env.stopAp w s.apm
    let r2 := restore_wifi env.restore retries r1.apm
    { world := r1.world, svc := { s with apm := r2.apm }
      evs := acc ++ [Ev.apStop, Ev.restoreWifi], raised := none }
  else
    { world := w, svc := s, evs := acc, raised := none }

/-- Steps 3-4 of `_cleanup`: connectivity responder, then the AP branch. -/
def cleanupFromConn (env : CleanupEnv) (retries : Nat) (w : World)
    (s : SvcState) (acc : List Ev) : CleanRes :=
  if s.connRunning then
    -- ConnectivityServer.stop catches internally; on an internal raise the
    -- is_running flag is never cleared (connectivity_server.py lines 90-105).
    let s1 : SvcState :=
      if env.connStopRaises then s else { s with connRunning := false }
    cleanupApBranch env retries w s1 (acc ++ [Ev.connStop])
  else cleanupApBranch env retries w s acc

/-- Steps 2-4 of `_cleanup`, entered after the video step. -/
def cleanupFromAudio (env : CleanupEnv) (retries : Nat) (w : World)
    (s : SvcState) (acc : List Ev) : CleanRes :=
  -- step 2: stop audio server if running
  if s.audioRunning then
    let s1 : SvcState := { s with audioRunning := false }
    if env.audioStopRaises then
      { world := w, svc := s1, evs := acc ++ [Ev.audioStop]
        raised := some ("audio stop raised") }
    else cleanupFromConn env retries w s1 (acc ++ [Ev.audioStop])
  else cleanupFromConn env retries w s acc

/-- Embeds `StreamingService._cleanup` (lines 275-298). -/
def cleanup (env : CleanupEnv) (retries : Nat) (w : World) (s : SvcState) :
    CleanRes :=
  -- step 1: stop video server if running
  if s.mjpegRunning then
    let s1 : SvcState := { s with mjpegRunning := false }
    if env.mjpegStopRaises then
      { world := w, svc := s1, evs := [Ev.mjpegStop]
        raised := some ("mjpeg stop raised") }
    else cleanupFromAudio env retries w s1 [Ev.mjpegStop]
  else cleanupFromAudio env retries w s []

/-! ## `stop_streaming` (lines 235-273) -/

/-- Result of `stop_streaming` / `start_streaming`.  `ok` is the returned
boolean; when `raised = some msg` the call itself propagated an exception
(so no boolean was returned; `ok` is set to `false` in that case). -/
structure CallRes where
  world : World
  svc : SvcState
  evs : List Ev
  ok : Bool
  raised : Option String

/-- Embeds `StreamingService.stop_streaming` (lines 235-273).  In `IDLE` it is a
no-op success (lines 248-250); otherwise it sets `STOPPING`, cancels the
monitors, runs `_cleanup` (a raise there propagates), then resets
`_start_time` to 0 and sets `IDLE`.  `_error_message` is not touched. -/
def stop_streaming (env : CleanupEnv) (retries : Nat) (w : World)
    (s : SvcState) : CallRes :=
  if s.streamState = StreamState.IDLE then
    { world := w, svc := s, evs := [], ok := true, raised := none }
  else
    let p1 := setState s StreamState.STOPPING
    let c := cleanup env retries w p1.1
    match c.raised with
    | some msg =>
      { world := c.world, svc := c.svc, evs := p1.2 ++ Ev.cleanupRun :: c.evs
        ok := false, raised := some msg }
    | none =>
      let s2 : SvcState := { c.svc with startTime := 0 }
      let p2 := setState s2 StreamState.IDLE
      { world := c.world, svc := p2.1
        evs := p1.2 ++ Ev.cleanupRun :: c.evs ++ p2.2, ok := true, raised := none }

/-! ## `start_streaming` (lines 127-233) -/

/-- Environment for one `start_streaming` invocation.  `cameraAvailable`
is `self.camera_service is not None`; `cameraRunning` its `is_running`
flag; `cameraStartOk`, `connStartOk`, `mjpegStartOk`, `audioStartOk` the
booleans returned by the respective component `start` calls (each of which
catches its own exceptions); `now` the session start timestamp taken at
line 200. -/
structure StartEnv where
  cameraAvailable : Bool
  cameraRunning : Bool
  cameraStartOk : Bool
  saveRaises : Bool
  apEnv : StartApEnv
  connStartOk : Bool
  mjpegStartOk : Bool
  audioStartOk : Bool
  now : Nat
  cleanupEnv : CleanupEnv

/-- The `try` body of `start_streaming` (lines 152-221): either the world,
service state and actions on success, or the exception message with the
partial world, state and actions. -/
def startBody (env : StartEnv) (retries : Nat) (w : World) (s : SvcState) :
    Except (String × World × SvcState × List Ev) (World × SvcState × List Ev) :=
  -- step 0: camera service
  if !env.cameraAvailable then
    Except.error ("Camera service not available", w, s, [])
  else
    let camEvs : List Ev := if env.cameraRunning then [] else [Ev.cameraStart]
    if !env.cameraRunning && !env.cameraStartOk then
      Except.error ("Failed to start camera service", w, s, camEvs)
    else
      -- step 1: save Wi-Fi credentials
      let sv := save_wifi_credentials env.saveRaises w s.apm
      let w1 := sv.1
      let sA : SvcState := { s with apm := sv.2.1 }
      let evs1 := camEvs ++ [Ev.saveCreds]
      if !sv.2.2 then
        Except.error ("Failed to save Wi-Fi credentials", w1, sA, evs1)
      else
        -- step 2: switch to AP mode
        let r := start_ap env.apEnv retries w1 sA.apm
        let sB : SvcState := { sA with apm := r.apm }
        let evs2 := evs1 ++ [Ev.apStart]
        if !r.ok then
          Except.error ("Failed to start AP mode", r.world, sB, evs2)
        else
          -- step 3: connectivity responder (non-fatal)
          let sC : SvcState := { sB with connRunning := env.connStartOk }
          let evs3 := evs2 ++ [Ev.connStart]
          -- step 4: video server (fatal)
          let evs4 := evs3 ++ [Ev.mjpegStart]
          if !env.mjpegStartOk then
            Except.error ("Failed to start video server", r.world, sC, evs4)
          else
            let sD : SvcState := { sC with mjpegRunning := true }
            -- step 5: audio server (non-fatal)
            let evs5 := evs4 ++ [Ev.audioStart]
            let sE : SvcState := { sD with audioRunning := env.audioStartOk
                                           startTime := env.now }
            let pR := setState sE StreamState.READY
            Except.ok (r.world, pR.1, evs5 ++ pR.2)

/-- The service state on entry to the try body of `start_streaming`
(lines 149-150): `PREPARING` with the error message cleared. -/
def prepState (s : SvcState) : SvcState :=
  { (setState s StreamState.PREPARING).1 with errorMessage := "" }

/-- Embeds `StreamingService.start_streaming` (lines 127-233).  The guard at
lines 140-142 rejects a start outside `IDLE`/`ERROR` with no state change
and no actions; otherwise the state becomes `PREPARING`, the error message
is cleared, and the startup sequence runs; on an exception the message is
recorded, the state becomes `ERROR` and `_cleanup` runs (a raise from
`_cleanup` propagates out of `start_streaming`). -/
def start_streaming (env : StartEnv) (retries : Nat) (w : World)
    (s : SvcState) : CallRes :=
  if !(s.streamState = StreamState.IDLE ∨ s.streamState = StreamState.ERROR) then
    { world := w, svc := s, evs := [], ok := false, raised := none }
  else
    let p0 := setState s StreamState.PREPARING
    match startBody env retries w (prepState s) with
    | Except.ok (w3, s3, evs) =>
      { world := w3, svc := s3, evs := p0.2 ++ evs, ok := true, raised := none }
    | Except.error (msg, w3, s3, evs) =>
      let s4 : SvcState := { s3 with errorMessage := msg }
      let pE := setState s4 StreamState.ERROR
      let c := cleanup env.cleanupEnv retries w3 pE.1
      { world := c.world, svc := c.svc
        evs := p0.2 ++ evs ++ pE.2 ++ Ev.cleanupRun :: c.evs
        ok := false, raised := c.raised }

/-! ## Client-presence monitor (`_client_monitor`, lines 336-368) -/

/-- Result of one iteration of the client-monitor loop body. -/
structure MonIter where
  svcState : StreamState
  noClientStart : Option Nat
  stopRequested : Bool
deriving DecidableEq, Repr

/-- One iteration of the `while` body of `_client_monitor` (lines
342-365), entered with the current state (in `{READY, ACTIVE}` per the
loop condition), the `no_client_start` timer, the current time and the two
client counts.  `stopRequested` records that the iteration called
`stop_streaming` and broke out of the loop. -/
def clientMonitorStep (clientTimeout : Nat) (now vClients aClients : Nat)
    (st : StreamState) (ncs : Option Nat) : MonIter :=
  let total := vClients + aClients
  if total > 0 then
    let st' := if st = StreamState.READY then StreamState.ACTIVE else st
    { svcState := st', noClientStart := none, stopRequested := false }
  else if st = StreamState.ACTIVE then
    match ncs with
    | none =>
      { svcState := st, noClientStart := some now, stopRequested := false }
    | some t0 =>
      if now - t0 ≥ clientTimeout then
        { svcState := st, noClientStart := some t0, stopRequested := true }
      else
        { svcState := st, noClientStart := some t0, stopRequested := false }
  else
    { svcState := st, noClientStart := ncs, stopRequested := false }

/-- Credentials effectively used to reconnect during a `restore_wifi`
attempt.  Modelled from the spec: the program passes no credentials to the
restore commands; restarting the client-mode supplicant makes it reconnect
with the ssid/psk pair stored in its persistent configuration file at that
moment ("reads the current client-mode configuration", "request a lease
again"), i.e. the pair parsed from `wpaConf`. -/
def credentialsUsedByRestore (w : World) : Option WiFiCredentials :=
  parseWpaCredentials w.wpaConf

/-! ## Concrete fixtures used by witnesses and counterexamples -/

def cmdOk : CmdResult := { ok := true, out := "inet 192.168.1.23/24" }

def cmdFail : CmdResult := { ok := false, out := "" }

/-- Attempt whose check reports an assigned address. -/
def attemptGood : AttemptEnv := { raised := false, check := cmdOk }

/-- Attempt whose check returns an empty output (no address). -/
def attemptBad : AttemptEnv := { raised := false, check := { ok := true, out := "" } }

def restoreGood : RestoreEnv :=
  { attempt := fun _ => attemptGood, fallback := { raised := false } }

def restoreAllFail : RestoreEnv :=
  { attempt := fun _ => attemptBad, fallback := { raised := false } }

def restoreFallbackRaises : RestoreEnv :=
  { attempt := fun _ => attemptBad, fallback := { raised := true } }

def apEnvGood : StartApEnv :=
  { hostapdConfigOk := true, dnsmasqConfigOk := true, hostapdCmd := cmdOk
    dnsmasqCmd := cmdOk, pgrep := { ok := true, out := "1234" }
    genPassword := "genpw123", restore := restoreGood }

/-- Environment in which the AP-daemon launch fails. -/
def apEnvLaunchFail : StartApEnv := { apEnvGood with hostapdCmd := cmdFail }

def cleanEnvGood : CleanupEnv :=
  { mjpegStopRaises := false, audioStopRaises := false, connStopRaises := false
    stopAp := { raised := false }, restore := restoreGood }

/-- Cleanup environment in which stopping the video broadcaster raises. -/
def cleanEnvMjpegRaises : CleanupEnv := { cleanEnvGood with mjpegStopRaises := true }

def startEnvGood : StartEnv :=
  { cameraAvailable := true, cameraRunning := true, cameraStartOk := true
    saveRaises := false, apEnv := apEnvGood, connStartOk := true
    mjpegStartOk := true, audioStartOk := true, now := 1000
    cleanupEnv := cleanEnvGood }

/-- Startup environment whose AP-daemon launch fails. -/
def startEnvApFail : StartEnv := { startEnvGood with apEnv := apEnvLaunchFail }

def sampleWpaConf : String :=
  "network=\x7b\n        ssid=\"HomeNet\"\n        psk=\"hunter2pass\"\n\x7d\n"

def world0 : World :=
  { wpaConf := some sampleWpaConf, wifiBackup := none
    hostapdConf := none, dnsmasqConf := none }

def apm0 : APMState :=
  { state := APState.CLIENT_MODE, saved_credentials := none, ap_password := "" }

def svcIdle : SvcState :=
  { streamState := StreamState.IDLE, startTime := 0, errorMessage := ""
    apm := apm0, mjpegRunning := false, audioRunning := false
    connRunning := false }

/-- A service state mid-session: `READY`, AP up, both servers running. -/
def svcReady : SvcState :=
  { streamState := StreamState.READY, startTime := 1000, errorMessage := ""
    apm := { state := APState.AP_READY, saved_credentials := none
             ap_password := "calmorb123" }
    mjpegRunning := true, audioRunning := true, connRunning := true }

/-- A service state in the middle of an active session. -/
def svcActive : SvcState := { svcReady with streamState := StreamState.ACTIVE }

/-- Events `_cleanup` can emit. -/
def stopEv (e : Ev) : Prop :=
  e = Ev.mjpegStop ∨ e = Ev.audioStop ∨ e = Ev.connStop ∨
  e = Ev.apStop ∨ e = Ev.restoreWifi

/-- Component-action events the startup sequence can emit. -/
def actionEv (e : Ev) : Prop :=
  e = Ev.cameraStart ∨ e = Ev.saveCreds ∨ e = Ev.apStart ∨
  e = Ev.connStart ∨ e = Ev.mjpegStart ∨ e = Ev.audioStart

/-! ## Helper lemmas -/

/-- A `some` result of the retry loop is the first connecting attempt. -/
lemma firstSuccess_some_spec (env : Nat → AttemptEnv) :
    ∀ fuel start i, firstSuccess env start fuel = some i →
      start ≤ i ∧ i < start + fuel ∧ attemptConnects (env i) = true ∧
      ∀ j, start ≤ j → j < i → attemptConnects (env j) = false := by
  intro fuel
  induction fuel with
  | zero =>
    intro start i h
    simp [firstSuccess] at h
  | succ n ih =>
    intro start i h
    unfold firstSuccess at h
    by_cases hc : attemptConnects (env start) = true
    · simp [hc] at h
      subst h
      exact ⟨le_refl _, by omega, hc, fun j hj1 hj2 => absurd hj2 (by omega)⟩
    · have hc' : attemptConnects (env start) = false := by simpa using hc
      simp [hc'] at h
      obtain ⟨h1, h2, h3, h4⟩ := ih (start + 1) i h
      refine ⟨by omega, by omega, h3, fun j hj1 hj2 => ?_⟩
      by_cases hj : j = start
      · exact hj ▸ hc'
      · exact h4 j (by omega) hj2

/-- A `none` result of the retry loop means every attempt failed. -/
lemma firstSuccess_none_spec (env : Nat → AttemptEnv) :
    ∀ fuel start, firstSuccess env start fuel = none →
      ∀ j, start ≤ j → j < start + fuel → attemptConnects (env j) = false := by
  intro fuel
  induction fuel with
  | zero =>
    intro start _ j hj1 hj2
    omega
  | succ n ih =>
    intro start h j hj1 hj2
    unfold firstSuccess at h
    by_cases hc : attemptConnects (env start) = true
    · simp [hc] at h
    · have hc' : attemptConnects (env start) = false := by simpa using hc
      simp [hc'] at h
      by_cases hj : j = start
      · exact hj ▸ hc'
      · exact ih (start + 1) h j (by omega) (by omega)

/-- The function `restore_wifi` never touches the stored credentials or AP password. -/
lemma restore_wifi_frame (env : RestoreEnv) (retries : Nat) (s : APMState) :
    (restore_wifi env retries s).apm.saved_credentials = s.saved_credentials ∧
    (restore_wifi env retries s).apm.ap_password = s.ap_password := by
  unfold restore_wifi
  rcases firstSuccess env.attempt 0 retries with _ | i <;>
    by_cases hf : env.fallback.raised <;> simp [hf]

/-- The function `restore_wifi` ends in `CLIENT_MODE` or `AP_FAILED`. -/
lemma restore_wifi_state_cases (env : RestoreEnv) (retries : Nat)
    (s : APMState) :
    (restore_wifi env retries s).apm.state = APState.CLIENT_MODE ∨
    (restore_wifi env retries s).apm.state = APState.AP_FAILED := by
  unfold restore_wifi
  rcases firstSuccess env.attempt 0 retries with _ | i <;>
    by_cases hf : env.fallback.raised <;> simp [hf]

/-- The function `stop_ap` never touches the supplicant configuration or the stored
credentials. -/
lemma stop_ap_frame (env : StopApEnv) (w : World) (s : APMState) :
    (stop_ap env w s).world.wpaConf = w.wpaConf ∧
    (stop_ap env w s).apm.saved_credentials = s.saved_credentials := by
  unfold stop_ap
  by_cases h : s.state = APState.CLIENT_MODE <;>
    by_cases hr : env.raised <;> simp [h, hr]

/-- Frame facts about the AP branch of `_cleanup`, for any environment. -/
lemma cleanupApBranch_weak (env : CleanupEnv) (retries : Nat) (w : World)
    (s : SvcState) (acc : List Ev) :
    (cleanupApBranch env retries w s acc).svc.streamState = s.streamState ∧
    (cleanupApBranch env retries w s acc).svc.errorMessage = s.errorMessage ∧
    (cleanupApBranch env retries w s acc).svc.startTime = s.startTime ∧
    (cleanupApBranch env retries w s acc).svc.apm.saved_credentials
      = s.apm.saved_credentials ∧
    (cleanupApBranch env retries w s acc).world.wpaConf = w.wpaConf ∧
    (cleanupApBranch env retries w s acc).raised = none ∧
    (cleanupApBranch env retries w s acc).evs =
      acc ++ (if is_ap_active s.apm then [Ev.apStop, Ev.restoreWifi] else []) := by
  unfold cleanupApBranch
  by_cases hap : is_ap_active s.apm <;>
    simp [hap, restore_wifi_frame, stop_ap_frame]

/-- Frame facts about steps 3-4 of `_cleanup`, for any environment. -/
lemma cleanupFromConn_weak (env : CleanupEnv) (retries : Nat) (w : World)
    (s : SvcState) (acc : List Ev) :
    (cleanupFromConn env retries w s acc).svc.streamState = s.streamState ∧
    (cleanupFromConn env retries w s acc).svc.errorMessage = s.errorMessage ∧
    (cleanupFromConn env retries w s acc).svc.startTime = s.startTime ∧
    (cleanupFromConn env retries w s acc).svc.apm.saved_credentials
      = s.apm.saved_credentials ∧
    (cleanupFromConn env retries w s acc).world.wpaConf = w.wpaConf ∧
    (cleanupFromConn env retries w s acc).raised = none ∧
    (cleanupFromConn env retries w s acc).evs =
      acc ++ (if s.connRunning then [Ev.connStop] else []) ++
        (if is_ap_active s.apm then [Ev.apStop, Ev.restoreWifi] else []) := by
  unfold cleanupFromConn
  by_cases hc : s.connRunning <;> by_cases hcr : env.connStopRaises <;>
    simp [hc, hcr, cleanupApBranch_weak, is_ap_active]

/-- Frame facts about steps 2-4 of `_cleanup`, for any environment. -/
lemma cleanupFromAudio_weak (env : CleanupEnv) (retries : Nat) (w : World)
    (s : SvcState) (acc : List Ev) :
    (cleanupFromAudio env retries w s acc).svc.streamState = s.streamState ∧
    (cleanupFromAudio env retries w s acc).svc.errorMessage = s.errorMessage ∧
    (cleanupFromAudio env retries w s acc).svc.startTime = s.startTime ∧
    (cleanupFromAudio env retries w s acc).svc.apm.saved_credentials
      = s.apm.saved_credentials ∧
    (cleanupFromAudio env retries w s acc).world.wpaConf = w.wpaConf := by
  unfold cleanupFromAudio
  by_cases ha : s.audioRunning <;> by_cases har : env.audioStopRaises <;>
    simp [ha, har, cleanupFromConn_weak]

/-- Frame facts about `_cleanup`, for any environment: it never changes
the stream state, the error message, the start timestamp, the stored
credentials or the supplicant configuration. -/
lemma cleanup_weak (env : CleanupEnv) (retries : Nat) (w : World)
    (s : SvcState) :
    (cleanup env retries w s).svc.streamState = s.streamState ∧
    (cleanup env retries w s).svc.errorMessage = s.errorMessage ∧
    (cleanup env retries w s).svc.startTime = s.startTime ∧
    (cleanup env retries w s).svc.apm.saved_credentials
      = s.apm.saved_credentials ∧
    (cleanup env retries w s).world.wpaConf = w.wpaConf := by
  unfold cleanup
  by_cases hm : s.mjpegRunning <;> by_cases hmr : env.mjpegStopRaises <;>
    simp [hm, hmr, cleanupFromAudio_weak]

/-- When the AP is not active, `_cleanup` leaves the manager state alone. -/
lemma cleanupApBranch_apm (env : CleanupEnv) (retries : Nat) (w : World)
    (s : SvcState) (acc : List Ev) (h : is_ap_active s.apm = false) :
    (cleanupApBranch env retries w s acc).svc.apm = s.apm := by
  unfold cleanupApBranch
  simp [h]

lemma cleanupFromConn_apm (env : CleanupEnv) (retries : Nat) (w : World)
    (s : SvcState) (acc : List Ev) (h : is_ap_active s.apm = false) :
    (cleanupFromConn env retries w s acc).svc.apm = s.apm := by
  unfold cleanupFromConn
  by_cases hc : s.connRunning <;> by_cases hcr : env.connStopRaises <;>
    simp [hc, hcr] <;> exact cleanupApBranch_apm env retries w _ _ h

lemma cleanupFromAudio_apm (env : CleanupEnv) (retries : Nat) (w : World)
    (s : SvcState) (acc : List Ev) (h : is_ap_active s.apm = false) :
    (cleanupFromAudio env retries w s acc).svc.apm = s.apm := by
  unfold cleanupFromAudio
  by_cases ha : s.audioRunning <;> by_cases har : env.audioStopRaises <;>
    simp [ha, har] <;> exact cleanupFromConn_apm env retries w _ _ h

lemma cleanup_apm (env : CleanupEnv) (retries : Nat) (w : World)
    (s : SvcState) (h : is_ap_active s.apm = false) :
    (cleanup env retries w s).svc.apm = s.apm := by
  unfold cleanup
  by_cases hm : s.mjpegRunning <;> by_cases hmr : env.mjpegStopRaises <;>
    simp [hm, hmr] <;> exact cleanupFromAudio_apm env retries w _ _ h

/-- The cleanup sequence emits only stop-type events. -/
lemma cleanupFromAudio_evs_sub (env : CleanupEnv) (retries : Nat) (w : World)
    (s : SvcState) (acc : List Ev) :
    ∀ e ∈ (cleanupFromAudio env retries w s acc).evs, e ∈ acc ∨ stopEv e := by
  intro e he
  unfold cleanupFromAudio at he
  by_cases ha : s.audioRunning <;> by_cases har : env.audioStopRaises <;>
    simp [ha, har, cleanupFromConn_weak, stopEv] at he <;>
    simp [stopEv] <;> tauto

lemma cleanup_evs_stop (env : CleanupEnv) (retries : Nat) (w : World)
    (s : SvcState) :
    ∀ e ∈ (cleanup env retries w s).evs, stopEv e := by
  intro e he
  unfold cleanup at he
  by_cases hm : s.mjpegRunning <;> by_cases hmr : env.mjpegStopRaises <;>
    simp [hm, hmr, stopEv] at he
  · simp [stopEv]
    tauto
  · have := cleanupFromAudio_evs_sub env retries w
      { s with mjpegRunning := false } [Ev.mjpegStop] e he
    simp [stopEv] at this ⊢
    tauto
  · have := cleanupFromAudio_evs_sub env retries w s [] e he
    simp [stopEv] at this ⊢
    tauto
  · have := cleanupFromAudio_evs_sub env retries w s [] e he
    simp [stopEv] at this ⊢
    tauto

/-- When neither broadcaster stop raises, `_cleanup` returns normally and
runs the steps in the fixed order. -/
lemma cleanup_no_raise (env : CleanupEnv) (retries : Nat) (w : World)
    (s : SvcState) (h1 : env.mjpegStopRaises = false)
    (h2 : env.audioStopRaises = false) :
    (cleanup env retries w s).raised = none ∧
    (cleanup env retries w s).evs =
      (if s.mjpegRunning then [Ev.mjpegStop] else []) ++
        (if s.audioRunning then [Ev.audioStop] else []) ++
        (if s.connRunning then [Ev.connStop] else []) ++
        (if is_ap_active s.apm then [Ev.apStop, Ev.restoreWifi] else []) := by
  unfold cleanup cleanupFromAudio
  by_cases hm : s.mjpegRunning <;> by_cases ha : s.audioRunning <;>
    simp [hm, ha, h1, h2, cleanupFromConn_weak, is_ap_active]

/-- The state setter changes only the `streamState` field, to the given
value. -/
lemma setState_fst (s : SvcState) (ns : StreamState) :
    (setState s ns).1.streamState = ns ∧
    (setState s ns).1.startTime = s.startTime ∧
    (setState s ns).1.errorMessage = s.errorMessage ∧
    (setState s ns).1.apm = s.apm ∧
    (setState s ns).1.mjpegRunning = s.mjpegRunning ∧
    (setState s ns).1.audioRunning = s.audioRunning ∧
    (setState s ns).1.connRunning = s.connRunning := by
  unfold setState
  by_cases h : ns = s.streamState <;> simp [h]

/-- The state setter fires a notification exactly when the value changes. -/
lemma setState_snd (s : SvcState) (ns : StreamState) :
    (setState s ns).2 =
      if ns = s.streamState then [] else [Ev.stateChange s.streamState ns] := by
  unfold setState
  by_cases h : ns = s.streamState <;> simp [h]

/-- On entry to the try body the state is `PREPARING`, the error message
cleared, and every other field unchanged. -/
lemma prepState_spec (s : SvcState) :
    (prepState s).streamState = StreamState.PREPARING ∧
    (prepState s).apm = s.apm ∧
    (prepState s).startTime = s.startTime ∧
    (prepState s).mjpegRunning = s.mjpegRunning ∧
    (prepState s).audioRunning = s.audioRunning ∧
    (prepState s).connRunning = s.connRunning ∧
    (prepState s).errorMessage = "" := by
  unfold prepState
  simp [setState_fst]

/-- The function `save_wifi_credentials` never writes the supplicant configuration. -/
lemma save_wpa (r : Bool) (w : World) (s : APMState) :
    (save_wifi_credentials r w s).1.wpaConf = w.wpaConf := by
  unfold save_wifi_credentials
  split
  · rfl
  · split <;> rfl

/-- When no file operation raises, `save_wifi_credentials` succeeds. -/
lemma save_ok (w : World) (s : APMState) :
    (save_wifi_credentials false w s).2.2 = true := by
  unfold save_wifi_credentials
  simp only [Bool.false_eq_true, if_false]
  split <;> rfl

/-- A successful parse is exactly what `save_wifi_credentials` stores. -/
lemma save_saved_some (w : World) (s : APMState) (c : WiFiCredentials)
    (h : parseWpaCredentials w.wpaConf = some c) :
    (save_wifi_credentials false w s).2.1.saved_credentials = some c := by
  unfold save_wifi_credentials
  simp [h]

/-- The function `start_ap` touches neither the supplicant configuration nor the
stored credentials. -/
lemma start_ap_frame (env : StartApEnv) (retries : Nat) (w : World)
    (s : APMState) :
    (start_ap env retries w s).world.wpaConf = w.wpaConf ∧
    (start_ap env retries w s).apm.saved_credentials = s.saved_credentials := by
  unfold start_ap startApFail
  by_cases h0 : s.state = APState.AP_READY <;>
    by_cases h1 : env.hostapdConfigOk <;>
    by_cases h2 : env.dnsmasqConfigOk <;>
    by_cases h3 : env.hostapdCmd.ok <;>
    by_cases h4 : env.dnsmasqCmd.ok <;>
    by_cases h5 : (env.pgrep.ok && truthyStripped env.pgrep.out) = true <;>
    simp [h0, h1, h2, h3, h4, h5, restore_wifi_frame]

/-- Any fatal step of `start_ap` (outside the `AP_READY` no-op guard)
moves the manager to `AP_FAILED` and hands that state to `restore_wifi`
before returning failure. -/
lemma start_ap_fail_spec (env : StartApEnv) (retries : Nat) (w : World)
    (s : APMState) (hs : s.state ≠ APState.AP_READY)
    (hf : env.hostapdConfigOk = false ∨ env.dnsmasqConfigOk = false ∨
      env.hostapdCmd.ok = false ∨ env.dnsmasqCmd.ok = false ∨
      (env.pgrep.ok && truthyStripped env.pgrep.out) = false) :
    (start_ap env retries w s).ok = false ∧
    (start_ap env retries w s).restoreRun = true ∧
    (start_ap env retries w s).apm =
      (restore_wifi env.restore retries
        { s with state := APState.AP_FAILED
                 ap_password := effPassword env }).apm := by
  unfold start_ap startApFail
  by_cases h1 : env.hostapdConfigOk <;>
    by_cases h2 : env.dnsmasqConfigOk <;>
    by_cases h3 : env.hostapdCmd.ok <;>
    by_cases h4 : env.dnsmasqCmd.ok <;>
    by_cases h5 : (env.pgrep.ok && truthyStripped env.pgrep.out) = true <;>
    simp [hs, h1, h2, h3, h4, h5] <;>
    simp [h1, h2, h3, h4, h5] at hf

/-- The function `save_wifi_credentials` never changes the manager's mode. -/
lemma save_state (r : Bool) (w : World) (s : APMState) :
    (save_wifi_credentials r w s).2.1.state = s.state := by
  unfold save_wifi_credentials
  split
  · rfl
  · split <;> rfl

/-- Every error result of the `start_streaming` try body keeps the stream
state it was entered with, keeps the supplicant configuration, and has
emitted only component-action events. -/
lemma startBody_error_spec (env : StartEnv) (retries : Nat) (w : World)
    (s : SvcState) :
    ∀ msg w' s' evs,
      startBody env retries w s = Except.error (msg, w', s', evs) →
        s'.streamState = s.streamState ∧ w'.wpaConf = w.wpaConf ∧
        ∀ e ∈ evs, actionEv e := by
  intro msg w' s' evs h
  simp only [startBody] at h
  split at h
  · simp at h
    obtain ⟨-, h2, h3, h4⟩ := h
    subst h2; subst h3; subst h4
    simp [actionEv]
  · split at h
    · simp at h
      obtain ⟨-, h2, h3, h4⟩ := h
      subst h2; subst h3; subst h4
      refine ⟨rfl, rfl, ?_⟩
      intro e he
      split at he <;> simp at he <;> (simp only [actionEv]; tauto)
    · split at h
      · simp at h
        obtain ⟨-, h2, h3, h4⟩ := h
        subst h2; subst h3; subst h4
        refine ⟨rfl, save_wpa _ _ _, ?_⟩
        intro e he
        split at he <;> simp at he <;> (simp only [actionEv]; tauto)
      · split at h
        · simp at h
          obtain ⟨-, h2, h3, h4⟩ := h
          subst h2; subst h3; subst h4
          refine ⟨rfl, ?_, ?_⟩
          · rw [(start_ap_frame _ _ _ _).1, save_wpa]
          · intro e he
            split at he <;> simp at he <;> (simp only [actionEv]; tauto)
        · split at h
          · simp at h
            obtain ⟨-, h2, h3, h4⟩ := h
            subst h2; subst h3; subst h4
            refine ⟨rfl, ?_, ?_⟩
            · rw [(start_ap_frame _ _ _ _).1, save_wpa]
            · intro e he
              split at he <;> simp at he <;> (simp only [actionEv]; tauto)
          · simp at h

/-- The success result of the `start_streaming` try body ends in `READY`,
keeps the supplicant configuration, and has emitted only component-action
events plus the `READY` notification. -/
lemma startBody_ok_spec (env : StartEnv) (retries : Nat) (w : World)
    (s : SvcState) :
    ∀ w' s' evs, startBody env retries w s = Except.ok (w', s', evs) →
      s'.streamState = StreamState.READY ∧ w'.wpaConf = w.wpaConf ∧
      ∀ e ∈ evs, actionEv e ∨
        e = Ev.stateChange s.streamState StreamState.READY := by
  intro w' s' evs h
  simp only [startBody] at h
  split at h
  · simp at h
  · split at h
    · simp at h
    · split at h
      · simp at h
      · split at h
        · simp at h
        · split at h
          · simp at h
          · simp at h
            obtain ⟨h2, h3, h4⟩ := h
            subst h2; subst h3; subst h4
            refine ⟨(setState_fst _ _).1, ?_, ?_⟩
            · rw [(start_ap_frame _ _ _ _).1, save_wpa]
            · intro e he
              rw [setState_snd] at he
              split at he <;> split at he <;> simp at he <;>
                (simp only [actionEv]; tauto)

/-- When the camera is available and running, nothing raises while saving
credentials, and the supplicant configuration parses, the try body — on
either outcome — leaves the parsed pair stored as the manager's saved
credentials and the supplicant configuration untouched. -/
lemma startBody_saved (env : StartEnv) (retries : Nat) (w : World)
    (s : SvcState) (c : WiFiCredentials)
    (hCam : env.cameraAvailable = true) (hCamRun : env.cameraRunning = true)
    (hSave : env.saveRaises = false)
    (hp : parseWpaCredentials w.wpaConf = some c) :
    (∀ w' s' evs, startBody env retries w s = Except.ok (w', s', evs) →
      s'.apm.saved_credentials = some c) ∧
    (∀ msg w' s' evs,
      startBody env retries w s = Except.error (msg, w', s', evs) →
        s'.apm.saved_credentials = some c) := by
  have hsome := save_saved_some w s.apm c hp
  constructor
  · intro w' s' evs h
    simp only [startBody] at h
    rw [hCam, hCamRun, hSave] at h
    simp only [Bool.not_true, Bool.false_and, Bool.false_eq_true, if_false,
      save_ok] at h
    split at h
    · simp at h
    · split at h
      · simp at h
      · simp at h
        obtain ⟨-, h3, -⟩ := h
        subst h3
        rw [(setState_fst _ _).2.2.2.1]
        rw [(start_ap_frame _ _ _ _).2]
        exact hsome
  · intro msg w' s' evs h
    simp only [startBody] at h
    rw [hCam, hCamRun, hSave] at h
    simp only [Bool.not_true, Bool.false_and, Bool.false_eq_true, if_false,
      save_ok] at h
    split at h
    · simp at h
      obtain ⟨-, -, h3, -⟩ := h
      subst h3
      rw [(start_ap_frame _ _ _ _).2]
      exact hsome
    · split at h
      · simp at h
        obtain ⟨-, -, h3, -⟩ := h
        subst h3
        rw [(start_ap_frame _ _ _ _).2]
        exact hsome
      · simp at h

/-- When the camera is fine, the backup succeeds, and the AP-daemon
launch command fails, the try body stops at the AP step: the error is
recorded, only the backup and the AP attempt have run, and the manager
state is whatever `start_ap`'s failure recovery produced. -/
lemma startBody_ap_fail (env : StartEnv) (retries : Nat) (w : World)
    (s : SvcState)
    (hCam : env.cameraAvailable = true) (hCamRun : env.cameraRunning = true)
    (hSave : env.saveRaises = false)
    (hApm : s.apm.state ≠ APState.AP_READY)
    (hLaunch : env.apEnv.hostapdCmd.ok = false) :
    startBody env retries w s =
      Except.error ("Failed to start AP mode",
        (start_ap env.apEnv retries (save_wifi_credentials false w s.apm).1
          (save_wifi_credentials false w s.apm).2.1).world,
        { s with apm := (start_ap env.apEnv retries
            (save_wifi_credentials false w s.apm).1
            (save_wifi_credentials false w s.apm).2.1).apm },
        [Ev.saveCreds, Ev.apStart]) := by
  have hfail := start_ap_fail_spec env.apEnv retries
    (save_wifi_credentials false w s.apm).1
    (save_wifi_credentials false w s.apm).2.1
    (by rw [save_state]; exact hApm)
    (Or.inr (Or.inr (Or.inl hLaunch)))
  simp only [startBody]
  rw [hCam, hCamRun, hSave]
  simp [save_ok, hfail.1]

/-- The function `start_streaming` never writes the supplicant configuration. -/
lemma start_streaming_wpa (env : StartEnv) (retries : Nat) (w : World)
    (s : SvcState) :
    (start_streaming env retries w s).world.wpaConf = w.wpaConf := by
  unfold start_streaming
  by_cases hg : s.streamState = StreamState.IDLE ∨
      s.streamState = StreamState.ERROR
  case neg => simp [hg]
  case pos =>
    rcases hbody : startBody env retries w (prepState s)
      with ⟨msg, w3, s3, evs⟩ | ⟨w3, s3, evs⟩ <;> simp [hg]
    · rw [(cleanup_weak env.cleanupEnv retries w3 _).2.2.2.2]
      exact (startBody_error_spec env retries w _ msg w3 s3 evs hbody).2.1
    · exact (startBody_ok_spec env retries w _ w3 s3 evs hbody).2.1

/-- The function `stop_streaming` never writes the supplicant configuration. -/
lemma stop_streaming_wpa (env : CleanupEnv) (retries : Nat) (w : World)
    (s : SvcState) :
    (stop_streaming env retries w s).world.wpaConf = w.wpaConf := by
  unfold stop_streaming
  by_cases hs : s.streamState = StreamState.IDLE
  · simp [hs]
  · rcases hcr : (cleanup env retries w
        (setState s StreamState.STOPPING).1).raised with _ | msg <;>
      simp [hs, hcr] <;>
      exact (cleanup_weak env retries w _).2.2.2.2

/-! ## Claim theorems -/

/-- Claim C1 counterexample: with both broadcasters, the portal and the
AP all up, an exception from stopping the video broadcaster propagates
out of `_cleanup`: the call raises to its caller, and neither the audio
stop, the portal stop, the AP exit nor the network restore is performed. -/
theorem cleanup_raise_skips_rest_cex :
    (cleanup cleanEnvMjpegRaises 3 world0 svcReady).raised ≠ none ∧
    is_ap_active svcReady.apm = true ∧
    (cleanup cleanEnvMjpegRaises 3 world0 svcReady).evs = [Ev.mjpegStop] ∧
    Ev.restoreWifi ∉ (cleanup cleanEnvMjpegRaises 3 world0 svcReady).evs ∧
    Ev.apStop ∉ (cleanup cleanEnvMjpegRaises 3 world0 svcReady).evs ∧
    Ev.audioStop ∉ (cleanup cleanEnvMjpegRaises 3 world0 svcReady).evs ∧
    Ev.connStop ∉ (cleanup cleanEnvMjpegRaises 3 world0 svcReady).evs := by
  decide

/-- Claim C1 (amended): `_cleanup` has no exception handling of its own —
an exception escaping a broadcaster's stop propagates to the caller and
skips the remaining steps (see the counterexample); but whenever no step
raises, every step of the fixed order runs: video stop, audio stop,
portal stop, and — when the AP is active — AP exit followed by the
network restore, and the call returns normally. -/
theorem cleanup_runs_all_steps_when_no_raise (env : CleanupEnv)
    (retries : Nat) (w : World) (s : SvcState)
    (h1 : env.mjpegStopRaises = false) (h2 : env.audioStopRaises = false) :
    (cleanup env retries w s).raised = none ∧
    (cleanup env retries w s).evs =
      (if s.mjpegRunning then [Ev.mjpegStop] else []) ++
        (if s.audioRunning then [Ev.audioStop] else []) ++
        (if s.connRunning then [Ev.connStop] else []) ++
        (if is_ap_active s.apm then [Ev.apStop, Ev.restoreWifi] else []) :=
  cleanup_no_raise env retries w s h1 h2

/-- Witness for the amended C1: with everything running and no step
raising, cleanup performs all five steps in order. -/
theorem cleanup_runs_all_steps_when_no_raise_witness :
    (cleanup cleanEnvGood 3 world0 svcReady).raised = none ∧
    (cleanup cleanEnvGood 3 world0 svcReady).evs =
      (if svcReady.mjpegRunning then [Ev.mjpegStop] else []) ++
        (if svcReady.audioRunning then [Ev.audioStop] else []) ++
        (if svcReady.connRunning then [Ev.connStop] else []) ++
        (if is_ap_active svcReady.apm then [Ev.apStop, Ev.restoreWifi] else []) :=
  cleanup_runs_all_steps_when_no_raise cleanEnvGood 3 world0 svcReady
    rfl rfl

/-- Claim C5 counterexample: stopping from `READY` with a recorded error
message completes the `STOPPING → IDLE` transition and resets the start
timestamp, but the error message is NOT cleared. -/
theorem stop_keeps_error_message_cex :
    (stop_streaming cleanEnvGood 3 world0
      { svcReady with errorMessage := "boom" }).svc.streamState
      = StreamState.IDLE ∧
    (stop_streaming cleanEnvGood 3 world0
      { svcReady with errorMessage := "boom" }).svc.startTime = 0 ∧
    (stop_streaming cleanEnvGood 3 world0
      { svcReady with errorMessage := "boom" }).svc.errorMessage = "boom" := by
  decide

/-- Claim C5 (amended): whenever the orchestrator completes cleanup and
transitions from `Stopping` to `Idle`, the session start timestamp is
reset to 0 — but the recorded error message is left unchanged (it is only
cleared at the start of the next `start_streaming` call). -/
theorem stop_resets_start_time_keeps_error (env : CleanupEnv)
    (retries : Nat) (w : World) (s : SvcState)
    (hs : s.streamState ≠ StreamState.IDLE)
    (h1 : env.mjpegStopRaises = false) (h2 : env.audioStopRaises = false) :
    (stop_streaming env retries w s).ok = true ∧
    (stop_streaming env retries w s).svc.streamState = StreamState.IDLE ∧
    (stop_streaming env retries w s).svc.startTime = 0 ∧
    (stop_streaming env retries w s).svc.errorMessage = s.errorMessage := by
  have hc := cleanup_no_raise env retries w (setState s StreamState.STOPPING).1 h1 h2
  have hw := cleanup_weak env retries w (setState s StreamState.STOPPING).1
  unfold stop_streaming
  simp [hs, hc.1, setState_fst, hw.2.1]

/-- A `stop_streaming` call that returns (rather than raises) always
leaves the orchestrator in `IDLE`. -/
lemma stop_streaming_idle_after (env : CleanupEnv) (retries : Nat)
    (w : World) (s : SvcState)
    (hr : (stop_streaming env retries w s).raised = none) :
    (stop_streaming env retries w s).svc.streamState = StreamState.IDLE := by
  unfold stop_streaming at hr ⊢
  by_cases hs : s.streamState = StreamState.IDLE
  · simp [hs]
  · simp only [hs, if_false, if_neg] at hr ⊢
    rcases hcr : (cleanup env retries w
        (setState s StreamState.STOPPING).1).raised with _ | msg
    · simp [hcr, setState_fst]
    · simp [hcr] at hr

/-- Witness for the amended C5. -/
theorem stop_resets_start_time_keeps_error_witness :
    (stop_streaming cleanEnvGood 3 world0 svcReady).ok = true ∧
    (stop_streaming cleanEnvGood 3 world0 svcReady).svc.streamState
      = StreamState.IDLE ∧
    (stop_streaming cleanEnvGood 3 world0 svcReady).svc.startTime = 0 ∧
    (stop_streaming cleanEnvGood 3 world0 svcReady).svc.errorMessage
      = svcReady.errorMessage :=
  stop_resets_start_time_keeps_error cleanEnvGood 3 world0 svcReady
    (by decide) rfl rfl

/-- Claim C7: a start request issued while the orchestrator is neither
`IDLE` nor `ERROR` is rejected: `start_streaming` returns `False`, leaves
the service state and the world unchanged, performs no startup actions
(no credential backup, no AP switch, no broadcaster or portal start) and
fires no state-change notification. -/
theorem start_rejected_outside_idle_error (env : StartEnv) (retries : Nat)
    (w : World) (s : SvcState)
    (h1 : s.streamState ≠ StreamState.IDLE)
    (h2 : s.streamState ≠ StreamState.ERROR) :
    start_streaming env retries w s =
      { world := w, svc := s, evs := [], ok := false, raised := none } := by
  unfold start_streaming
  simp [h1, h2]

/-- Witness for C7: a start request in `ACTIVE` is rejected without
effect. -/
theorem start_rejected_outside_idle_error_witness :
    start_streaming startEnvGood 3 world0 svcActive =
      { world := world0, svc := svcActive, evs := [], ok := false
        raised := none } :=
  start_rejected_outside_idle_error startEnvGood 3 world0 svcActive
    (by decide) (by decide)

/-- Claim C9: in one iteration of the client-presence monitor (state in
`{READY, ACTIVE}`): a positive summed client count resets the no-client
timer to unset, requests no stop, and moves `READY` to `ACTIVE` (leaving
`ACTIVE` alone); a zero count in `ACTIVE` starts the timer at the current
time if unset, keeps its start point otherwise, and requests a stop
exactly when the elapsed time has reached the configured client-idle
timeout, whose default is 3600 seconds. -/
theorem client_monitor_step_spec (T now v a t0 : Nat) (st : StreamState)
    (ncs : Option Nat) :
    STREAM_CLIENT_TIMEOUT = 3600 ∧
    (0 < v + a →
      (clientMonitorStep T now v a st ncs).noClientStart = none ∧
      (clientMonitorStep T now v a st ncs).stopRequested = false ∧
      (st = StreamState.READY →
        (clientMonitorStep T now v a st ncs).svcState = StreamState.ACTIVE) ∧
      (st = StreamState.ACTIVE →
        (clientMonitorStep T now v a st ncs).svcState = StreamState.ACTIVE)) ∧
    (v + a = 0 →
      clientMonitorStep T now v a StreamState.ACTIVE none =
        { svcState := StreamState.ACTIVE, noClientStart := some now
          stopRequested := false } ∧
      (clientMonitorStep T now v a StreamState.ACTIVE (some t0)).noClientStart
        = some t0 ∧
      ((clientMonitorStep T now v a StreamState.ACTIVE (some t0)).stopRequested
        = true ↔ T ≤ now - t0)) := by
  refine ⟨rfl, ?_, ?_⟩
  · intro hpos
    by_cases hr : st = StreamState.READY
    · simp [clientMonitorStep, hpos, hr]
    · by_cases ha : st = StreamState.ACTIVE <;>
        simp [clientMonitorStep, hpos, hr, ha]
  · intro hzero
    refine ⟨?_, ?_, ?_⟩
    · simp [clientMonitorStep, hzero]
    · by_cases hto : T ≤ now - t0 <;> simp [clientMonitorStep, hzero, hto]
    · by_cases hto : T ≤ now - t0 <;> simp [clientMonitorStep, hzero, hto]

/-- Witness for C9 at concrete inputs (timeout 3600, two clients while
`READY`; and an expired timer while `ACTIVE` with none). -/
theorem client_monitor_step_spec_witness :
    STREAM_CLIENT_TIMEOUT = 3600 ∧
    (0 < 1 + 1 →
      (clientMonitorStep 3600 5000 1 1 StreamState.READY (some 10)).noClientStart = none ∧
      (clientMonitorStep 3600 5000 1 1 StreamState.READY (some 10)).stopRequested = false ∧
      (StreamState.READY = StreamState.READY →
        (clientMonitorStep 3600 5000 1 1 StreamState.READY (some 10)).svcState = StreamState.ACTIVE) ∧
      (StreamState.READY = StreamState.ACTIVE →
        (clientMonitorStep 3600 5000 1 1 StreamState.READY (some 10)).svcState = StreamState.ACTIVE)) ∧
    (1 + 1 = 0 →
      clientMonitorStep 3600 5000 1 1 StreamState.ACTIVE none =
        { svcState := StreamState.ACTIVE, noClientStart := some 5000
          stopRequested := false } ∧
      (clientMonitorStep 3600 5000 1 1 StreamState.ACTIVE (some 10)).noClientStart = some 10 ∧
      ((clientMonitorStep 3600 5000 1 1 StreamState.ACTIVE (some 10)).stopRequested = true ↔
        3600 ≤ 5000 - 10)) :=
  client_monitor_step_spec 3600 5000 1 1 10 StreamState.READY (some 10)

/-- Claim C8 counterexample: a stop invocation does not "never error":
with the video broadcaster running and its stop raising, the first
`stop_streaming` call propagates the cleanup exception to its caller
(`stop_streaming` line 262 runs `_cleanup` with no handler) and leaves
the state at `STOPPING` — so the second call is not even made from
`IDLE`. -/
theorem stop_raises_cex :
    (stop_streaming cleanEnvMjpegRaises 3 world0 svcReady).raised ≠ none ∧
    (stop_streaming cleanEnvMjpegRaises 3 world0 svcReady).ok = false ∧
    (stop_streaming cleanEnvMjpegRaises 3 world0 svcReady).svc.streamState
      = StreamState.STOPPING := by
  decide

/-- Claim C8 (amended): stopping is idempotent provided no cleanup step
raises (an exception from a broadcaster stop propagates out of the first
call, see the counterexample).  A stop that returned — rather than
raised — leaves the orchestrator in `IDLE`, and the second call, made
while the state is already `IDLE`, is a no-op success: it returns `True`
without touching any state, without performing any action and without
raising; likewise `stop_ap` invoked while the manager is already in
`CLIENT_MODE` is a no-op success. -/
theorem stop_twice_idempotent (env env2 : CleanupEnv)
    (retries retries2 : Nat) (w wA : World) (s : SvcState)
    (envA : StopApEnv) (sA : APMState)
    (hA : sA.state = APState.CLIENT_MODE)
    (hr : (stop_streaming env retries w s).raised = none) :
    stop_streaming env2 retries2 (stop_streaming env retries w s).world
        (stop_streaming env retries w s).svc =
      { world := (stop_streaming env retries w s).world
        svc := (stop_streaming env retries w s).svc
        evs := [], ok := true, raised := none } ∧
    (s.streamState = StreamState.IDLE →
      stop_streaming env retries w s =
        { world := w, svc := s, evs := [], ok := true, raised := none }) ∧
    stop_ap envA wA sA = { world := wA, apm := sA, ok := true } := by
  refine ⟨?_, ?_, ?_⟩
  · have hidle := stop_streaming_idle_after env retries w s hr
    set r := stop_streaming env retries w s with hrdef
    unfold stop_streaming
    simp [hidle]
  · intro hs
    unfold stop_streaming
    simp [hs]
  · unfold stop_ap
    simp [hA]

/-- Witness for C8: a full stop from `READY` followed by a second stop,
and a `stop_ap` in `CLIENT_MODE`. -/
theorem stop_twice_idempotent_witness :
    stop_streaming cleanEnvGood 3
        (stop_streaming cleanEnvGood 3 world0 svcReady).world
        (stop_streaming cleanEnvGood 3 world0 svcReady).svc =
      { world := (stop_streaming cleanEnvGood 3 world0 svcReady).world
        svc := (stop_streaming cleanEnvGood 3 world0 svcReady).svc
        evs := [], ok := true, raised := none } ∧
    (svcReady.streamState = StreamState.IDLE →
      stop_streaming cleanEnvGood 3 world0 svcReady =
        { world := world0, svc := svcReady, evs := [], ok := true
          raised := none }) ∧
    stop_ap { raised := false } world0 apm0 =
      { world := world0, apm := apm0, ok := true } :=
  stop_twice_idempotent cleanEnvGood cleanEnvGood 3 3 world0 world0 svcReady
    { raised := false } apm0 (by decide) (by decide)

/-- Claim C6: the `Error` state is entered only from `Preparing`: every
state-change notification into `ERROR` emitted by `start_streaming` has
`PREPARING` as the outgoing state, and on such a path cleanup ran exactly
once; `stop_streaming` never notifies a transition into `ERROR`. -/
theorem error_only_from_preparing (env : StartEnv) (env2 : CleanupEnv)
    (retries retries2 : Nat) (w w2 : World) (s s2 : SvcState) :
    (∀ o, Ev.stateChange o StreamState.ERROR ∈
        (start_streaming env retries w s).evs →
      o = StreamState.PREPARING ∧
      (start_streaming env retries w s).evs.count Ev.cleanupRun = 1) ∧
    (∀ o, Ev.stateChange o StreamState.ERROR ∉
        (stop_streaming env2 retries2 w2 s2).evs) := by
  constructor
  · intro o hmem
    by_cases hg : s.streamState = StreamState.IDLE ∨
        s.streamState = StreamState.ERROR
    case neg =>
      unfold start_streaming at hmem
      simp [hg] at hmem
    case pos =>
      unfold start_streaming at hmem ⊢
      rcases hbody : startBody env retries w (prepState s)
        with ⟨msg, w3, s3, evs⟩ | ⟨w3, s3, evs⟩
      · -- error branch: the ERROR notification appears, from PREPARING
        obtain ⟨hst, -, hact⟩ :=
          startBody_error_spec env retries w _ msg w3 s3 evs hbody
        rw [hbody] at hmem
        have hs3 : s3.streamState = StreamState.PREPARING := by
          rw [hst]
          exact (prepState_spec s).1
        have hcstop := cleanup_evs_stop env.cleanupEnv retries w3
          (setState { s3 with errorMessage := msg } StreamState.ERROR).1
        have hce : List.count Ev.cleanupRun evs = 0 :=
          List.count_eq_zero.mpr
            (fun hin => by have := hact _ hin; simp [actionEv] at this)
        have hcc : List.count Ev.cleanupRun
            (cleanup env.cleanupEnv retries w3
              (setState { s3 with errorMessage := msg }
                StreamState.ERROR).1).evs = 0 :=
          List.count_eq_zero.mpr
            (fun hin => by have := hcstop _ hin; simp [stopEv] at this)
        rw [hs3] at hcstop hcc
        rcases hg with hg | hg <;>
        · simp [hg, setState_snd, hs3] at hmem
          refine ⟨?_, ?_⟩
          · rcases hmem with hmem | hmem | hmem
            · exact absurd (hact _ hmem) (by simp [actionEv])
            · exact hmem
            · exact absurd (hcstop _ hmem) (by simp [stopEv])
          · simp [hg, setState_snd, hs3, List.count_append, List.count_cons,
              hce, hcc]
      · -- success branch: no ERROR notification is emitted at all
        obtain ⟨-, -, hevs⟩ :=
          startBody_ok_spec env retries w _ w3 s3 evs hbody
        rw [hbody] at hmem
        rcases hg with hg | hg <;>
        · simp [hg, setState_snd] at hmem
          exact absurd (hevs _ hmem) (by simp [actionEv])
  · intro o hmem
    unfold stop_streaming at hmem
    by_cases hs : s2.streamState = StreamState.IDLE
    · simp [hs] at hmem
    · have hcstop := cleanup_evs_stop env2 retries2 w2
        (setState s2 StreamState.STOPPING).1
      rcases hcr : (cleanup env2 retries2 w2
          (setState s2 StreamState.STOPPING).1).raised with _ | msg <;>
        simp [hs, hcr, setState_snd] at hmem <;>
        exact absurd (hcstop _ hmem) (by simp [stopEv])

/-- Claim C2: `restore_wifi` executes at most `retries` attempts (the
configured count defaults to 3); the first attempt whose check reports an
assigned address ends the call at once with state `CLIENT_MODE` and
success; if every attempt fails, the hard fallback runs (exactly once, on
that call), and — its commands' outcomes being ignored — ends with state
`CLIENT_MODE` and success unless it raised, in which case the state is
`AP_FAILED` and the call fails. -/
theorem restore_wifi_retry_fallback_spec (env : RestoreEnv) (retries : Nat)
    (s : APMState) :
    STREAM_WIFI_RESTORE_RETRIES = 3 ∧
    (restore_wifi env retries s).attemptsRun ≤ retries ∧
    (∀ i, firstSuccess env.attempt 0 retries = some i →
      restore_wifi env retries s =
        { apm := { s with state := APState.CLIENT_MODE }, ok := true
          attemptsRun := i + 1, fallbackRun := false } ∧
      attemptConnects (env.attempt i) = true ∧
      ∀ j, j < i → attemptConnects (env.attempt j) = false) ∧
    ((∃ i, i < retries ∧ attemptConnects (env.attempt i) = true) →
      (restore_wifi env retries s).ok = true ∧
      (restore_wifi env retries s).apm.state = APState.CLIENT_MODE ∧
      (restore_wifi env retries s).fallbackRun = false) ∧
    ((∀ i, i < retries → attemptConnects (env.attempt i) = false) →
      (restore_wifi env retries s).fallbackRun = true ∧
      (restore_wifi env retries s).attemptsRun = retries ∧
      (env.fallback.raised = true →
        restore_wifi env retries s =
          { apm := { s with state := APState.AP_FAILED }, ok := false
            attemptsRun := retries, fallbackRun := true }) ∧
      (env.fallback.raised = false →
        restore_wifi env retries s =
          { apm := { s with state := APState.CLIENT_MODE }, ok := true
            attemptsRun := retries, fallbackRun := true })) := by
  refine ⟨rfl, ?_, ?_, ?_, ?_⟩
  · rcases hfs : firstSuccess env.attempt 0 retries with _ | i
    · simp [restore_wifi, hfs]
      by_cases hf : env.fallback.raised <;> simp [hf]
    · obtain ⟨-, h2, -, -⟩ := firstSuccess_some_spec env.attempt retries 0 i hfs
      simp [restore_wifi, hfs]
      omega
  · intro i hfs
    obtain ⟨-, -, h3, h4⟩ := firstSuccess_some_spec env.attempt retries 0 i hfs
    exact ⟨by simp [restore_wifi, hfs], h3, fun j hj => h4 j (by omega) hj⟩
  · rintro ⟨i, hi, hc⟩
    rcases hfs : firstSuccess env.attempt 0 retries with _ | j
    · have := firstSuccess_none_spec env.attempt retries 0 hfs i (by omega) (by omega)
      rw [hc] at this
      cases this
    · simp [restore_wifi, hfs]
  · intro hall
    rcases hfs : firstSuccess env.attempt 0 retries with _ | j
    · by_cases hf : env.fallback.raised <;> simp [restore_wifi, hfs, hf]
    · obtain ⟨-, h2, h3, -⟩ := firstSuccess_some_spec env.attempt retries 0 j hfs
      have := hall j (by omega)
      rw [h3] at this
      cases this

/-- Witness for C2 at a concrete environment: every attempt's check comes
back empty and the fallback completes without raising. -/
theorem restore_wifi_retry_fallback_spec_witness :
    STREAM_WIFI_RESTORE_RETRIES = 3 ∧
    (restore_wifi restoreAllFail 3 apm0).attemptsRun ≤ 3 ∧
    (∀ i, firstSuccess restoreAllFail.attempt 0 3 = some i →
      restore_wifi restoreAllFail 3 apm0 =
        { apm := { apm0 with state := APState.CLIENT_MODE }, ok := true
          attemptsRun := i + 1, fallbackRun := false } ∧
      attemptConnects (restoreAllFail.attempt i) = true ∧
      ∀ j, j < i → attemptConnects (restoreAllFail.attempt j) = false) ∧
    ((∃ i, i < 3 ∧ attemptConnects (restoreAllFail.attempt i) = true) →
      (restore_wifi restoreAllFail 3 apm0).ok = true ∧
      (restore_wifi restoreAllFail 3 apm0).apm.state = APState.CLIENT_MODE ∧
      (restore_wifi restoreAllFail 3 apm0).fallbackRun = false) ∧
    ((∀ i, i < 3 → attemptConnects (restoreAllFail.attempt i) = false) →
      (restore_wifi restoreAllFail 3 apm0).fallbackRun = true ∧
      (restore_wifi restoreAllFail 3 apm0).attemptsRun = 3 ∧
      (FallbackEnv.raised restoreAllFail.fallback = true →
        restore_wifi restoreAllFail 3 apm0 =
          { apm := { apm0 with state := APState.AP_FAILED }, ok := false
            attemptsRun := 3, fallbackRun := true }) ∧
      (FallbackEnv.raised restoreAllFail.fallback = false →
        restore_wifi restoreAllFail 3 apm0 =
          { apm := { apm0 with state := APState.CLIENT_MODE }, ok := true
            attemptsRun := 3, fallbackRun := true })) :=
  restore_wifi_retry_fallback_spec restoreAllFail 3 apm0

/-- Claim C10: `stop_ap` never sets `CLIENT_MODE`: called from any state
other than `CLIENT_MODE` it leaves the manager in `AP_STOPPING` (so
`is_ap_active` is false but the manager is not in its client rest state),
returning success whenever nothing raised; and `restore_wifi` succeeds
exactly when it has set the state to `CLIENT_MODE`. -/
theorem stop_ap_never_client_mode (env : StopApEnv) (renv : RestoreEnv)
    (retries : Nat) (w : World) (s s2 : APMState)
    (h : s.state ≠ APState.CLIENT_MODE) :
    (stop_ap env w s).apm.state = APState.AP_STOPPING ∧
    is_ap_active (stop_ap env w s).apm = false ∧
    (stop_ap env w s).apm.state ≠ APState.CLIENT_MODE ∧
    (env.raised = false → (stop_ap env w s).ok = true) ∧
    ((restore_wifi renv retries s2).ok = true ↔
      (restore_wifi renv retries s2).apm.state = APState.CLIENT_MODE) := by
  have hstop : (stop_ap env w s).apm.state = APState.AP_STOPPING := by
    unfold stop_ap
    by_cases hr : env.raised <;> simp [h, hr]
  refine ⟨hstop, ?_, ?_, ?_, ?_⟩
  · simp [is_ap_active, hstop]
  · simp [hstop]
  · intro hr
    unfold stop_ap
    simp [h, hr]
  · unfold restore_wifi
    rcases hfs : firstSuccess renv.attempt 0 retries with _ | i <;>
      by_cases hf : renv.fallback.raised <;> simp [hfs, hf]

/-- Witness for C10: stopping from `AP_READY` with nothing raised, and a
restore run whose attempts all fail but whose fallback completes. -/
theorem stop_ap_never_client_mode_witness :
    (stop_ap { raised := false } world0 { apm0 with state := APState.AP_READY }).apm.state = APState.AP_STOPPING ∧
    is_ap_active (stop_ap { raised := false } world0 { apm0 with state := APState.AP_READY }).apm = false ∧
    (stop_ap { raised := false } world0 { apm0 with state := APState.AP_READY }).apm.state ≠ APState.CLIENT_MODE ∧
    (StopApEnv.raised { raised := false } = false →
      (stop_ap { raised := false } world0 { apm0 with state := APState.AP_READY }).ok = true) ∧
    ((restore_wifi restoreAllFail 3 apm0).ok = true ↔
      (restore_wifi restoreAllFail 3 apm0).apm.state = APState.CLIENT_MODE) :=
  stop_ap_never_client_mode { raised := false } restoreAllFail 3 world0
    { apm0 with state := APState.AP_READY } apm0 (by decide)

/-- Witness for C6: with the AP-daemon launch failing during startup from
`IDLE`, the `ERROR` notification fires from `PREPARING` and cleanup ran
exactly once. -/
theorem error_only_from_preparing_witness :
    StreamState.PREPARING = StreamState.PREPARING ∧
    (start_streaming startEnvApFail 3 world0 svcIdle).evs.count
      Ev.cleanupRun = 1 :=
  (error_only_from_preparing startEnvApFail cleanEnvGood 3 3 world0 world0
    svcIdle svcReady).1 StreamState.PREPARING (by decide)

/-- Claim C3: every fatal step of `start_ap` (writing either
configuration file, launching the AP daemon or the DHCP server, or the
final liveness check) moves the manager to `AP_FAILED` and invokes
`restore_wifi` on that state before returning failure; and when the
AP-daemon launch fails during the orchestrator's startup from `IDLE`, the
session ends in `ERROR` with the corresponding message, the credentials
restore was invoked (the manager state is the restore result applied to
the `AP_FAILED` state), and the video and audio broadcasters were never
started. -/
theorem ap_fatal_recovery_and_startup_error (envA : StartApEnv)
    (retriesA : Nat) (wA : World) (sA : APMState) (env : StartEnv)
    (retries : Nat) (w : World) (s : SvcState)
    (hsA : sA.state ≠ APState.AP_READY)
    (hfA : envA.hostapdConfigOk = false ∨ envA.dnsmasqConfigOk = false ∨
      envA.hostapdCmd.ok = false ∨ envA.dnsmasqCmd.ok = false ∨
      (envA.pgrep.ok && truthyStripped envA.pgrep.out) = false)
    (hIdle : s.streamState = StreamState.IDLE)
    (hCam : env.cameraAvailable = true) (hCamRun : env.cameraRunning = true)
    (hSave : env.saveRaises = false)
    (hApm : s.apm.state ≠ APState.AP_READY)
    (hLaunch : env.apEnv.hostapdCmd.ok = false) :
    (start_ap envA retriesA wA sA).ok = false ∧
    (start_ap envA retriesA wA sA).restoreRun = true ∧
    (start_ap envA retriesA wA sA).apm =
      (restore_wifi envA.restore retriesA
        { sA with state := APState.AP_FAILED
                  ap_password := effPassword envA }).apm ∧
    (start_streaming env retries w s).ok = false ∧
    (start_streaming env retries w s).svc.streamState = StreamState.ERROR ∧
    (start_streaming env retries w s).svc.errorMessage
      = "Failed to start AP mode" ∧
    Ev.mjpegStart ∉ (start_streaming env retries w s).evs ∧
    Ev.audioStart ∉ (start_streaming env retries w s).evs ∧
    (start_streaming env retries w s).svc.apm =
      (restore_wifi env.apEnv.restore retries
        { (save_wifi_credentials false w s.apm).2.1 with
            state := APState.AP_FAILED
            ap_password := effPassword env.apEnv }).apm := by
  obtain ⟨ha1, ha2, ha3⟩ := start_ap_fail_spec envA retriesA wA sA hsA hfA
  refine ⟨ha1, ha2, ha3, ?_⟩
  have hpa : (prepState s).apm = s.apm := (prepState_spec s).2.1
  have hbody := startBody_ap_fail env retries w (prepState s) hCam hCamRun
    hSave (by rw [hpa]; exact hApm) hLaunch
  rw [hpa] at hbody
  obtain ⟨hr1, hr2, hr3⟩ := start_ap_fail_spec env.apEnv retries
    (save_wifi_credentials false w s.apm).1
    (save_wifi_credentials false w s.apm).2.1
    (by rw [save_state]; exact hApm)
    (Or.inr (Or.inr (Or.inl hLaunch)))
  have hstate : is_ap_active (start_ap env.apEnv retries
      (save_wifi_credentials false w s.apm).1
      (save_wifi_credentials false w s.apm).2.1).apm = false := by
    rw [hr3]
    rcases restore_wifi_state_cases env.apEnv.restore retries
        { (save_wifi_credentials false w s.apm).2.1 with
            state := APState.AP_FAILED
            ap_password := effPassword env.apEnv } with hc | hc <;>
      simp [is_ap_active, hc]
  unfold start_streaming
  rw [hbody]
  have hguard : (!decide (s.streamState = StreamState.IDLE ∨
      s.streamState = StreamState.ERROR)) = false := by simp [hIdle]
  simp only [hguard, Bool.false_eq_true, if_false]
  refine ⟨trivial, ?_, ?_, ?_, ?_, ?_⟩
  · simp [cleanup_weak, setState_fst]
  · simp [cleanup_weak, setState_fst]
  · intro hmem
    simp [setState_snd] at hmem
    exact absurd (cleanup_evs_stop _ _ _ _ _ hmem) (by simp [stopEv])
  · intro hmem
    simp [setState_snd] at hmem
    exact absurd (cleanup_evs_stop _ _ _ _ _ hmem) (by simp [stopEv])
  · rw [cleanup_apm _ _ _ _ (by rw [(setState_fst _ _).2.2.2.1]; exact hstate)]
    rw [(setState_fst _ _).2.2.2.1]
    exact hr3

/-- Witness for C3: the AP-daemon launch fails both at the manager level
and inside a startup from `IDLE`. -/
theorem ap_fatal_recovery_and_startup_error_witness :
    (start_ap apEnvLaunchFail 3 world0 apm0).ok = false ∧
    (start_ap apEnvLaunchFail 3 world0 apm0).restoreRun = true ∧
    (start_ap apEnvLaunchFail 3 world0 apm0).apm =
      (restore_wifi apEnvLaunchFail.restore 3
        { apm0 with state := APState.AP_FAILED
                    ap_password := effPassword apEnvLaunchFail }).apm ∧
    (start_streaming startEnvApFail 3 world0 svcIdle).ok = false ∧
    (start_streaming startEnvApFail 3 world0 svcIdle).svc.streamState
      = StreamState.ERROR ∧
    (start_streaming startEnvApFail 3 world0 svcIdle).svc.errorMessage
      = "Failed to start AP mode" ∧
    Ev.mjpegStart ∉ (start_streaming startEnvApFail 3 world0 svcIdle).evs ∧
    Ev.audioStart ∉ (start_streaming startEnvApFail 3 world0 svcIdle).evs ∧
    (start_streaming startEnvApFail 3 world0 svcIdle).svc.apm =
      (restore_wifi startEnvApFail.apEnv.restore 3
        { (save_wifi_credentials false world0 svcIdle.apm).2.1 with
            state := APState.AP_FAILED
            ap_password := effPassword startEnvApFail.apEnv }).apm :=
  ap_fatal_recovery_and_startup_error apEnvLaunchFail 3 world0 apm0
    startEnvApFail 3 world0 svcIdle (by decide)
    (Or.inr (Or.inr (Or.inl (by decide)))) (by decide) (by decide)
    (by decide) (by decide) (by decide) (by decide)

/-- Claim C4: credential round-trip.  When a session starts from `IDLE`
with the camera ready and the supplicant configuration parsing to a
`{ssid, passphrase}` pair, that pair is what the backup captures in
memory, and — since no operation of the manager or orchestrator ever
writes the supplicant configuration — it is also the pair the restarted
supplicant reconnects with during the restore performed by the subsequent
stop. -/
theorem credentials_round_trip (env : StartEnv) (env2 : CleanupEnv)
    (retries retries2 : Nat) (w : World) (s : SvcState)
    (c : WiFiCredentials)
    (hIdle : s.streamState = StreamState.IDLE)
    (hCam : env.cameraAvailable = true) (hCamRun : env.cameraRunning = true)
    (hSave : env.saveRaises = false)
    (hp : parseWpaCredentials w.wpaConf = some c) :
    (start_streaming env retries w s).svc.apm.saved_credentials = some c ∧
    credentialsUsedByRestore (start_streaming env retries w s).world
      = some c ∧
    credentialsUsedByRestore
      (stop_streaming env2 retries2 (start_streaming env retries w s).world
        (start_streaming env retries w s).svc).world = some c := by
  have hg : s.streamState = StreamState.IDLE ∨
      s.streamState = StreamState.ERROR := Or.inl hIdle
  have hbodysaved := startBody_saved env retries w (prepState s) c hCam
    hCamRun hSave hp
  have h1 : (start_streaming env retries w s).svc.apm.saved_credentials
      = some c := by
    unfold start_streaming
    rcases hbody : startBody env retries w (prepState s)
      with ⟨msg, w3, s3, evs⟩ | ⟨w3, s3, evs⟩ <;> simp [hg]
    · rw [(cleanup_weak _ _ _ _).2.2.2.1, (setState_fst _ _).2.2.2.1]
      exact hbodysaved.2 msg w3 s3 evs hbody
    · exact hbodysaved.1 w3 s3 evs hbody
  refine ⟨h1, ?_, ?_⟩
  · unfold credentialsUsedByRestore
    rw [start_streaming_wpa]
    exact hp
  · unfold credentialsUsedByRestore
    rw [stop_streaming_wpa, start_streaming_wpa]
    exact hp

/-- Witness for C4 on the sample configuration. -/
theorem credentials_round_trip_witness :
    (start_streaming startEnvGood 3 world0 svcIdle).svc.apm.saved_credentials
      = some { ssid := "HomeNet", password := "hunter2pass"
               key_mgmt := "WPA-PSK" } ∧
    credentialsUsedByRestore (start_streaming startEnvGood 3 world0 svcIdle).world
      = some { ssid := "HomeNet", password := "hunter2pass"
               key_mgmt := "WPA-PSK" } ∧
    credentialsUsedByRestore
      (stop_streaming cleanEnvGood 3
        (start_streaming startEnvGood 3 world0 svcIdle).world
        (start_streaming startEnvGood 3 world0 svcIdle).svc).world
      = some { ssid := "HomeNet", password := "hunter2pass"
               key_mgmt := "WPA-PSK" } :=
  credentials_round_trip startEnvGood cleanEnvGood 3 3 world0 svcIdle
    { ssid := "HomeNet", password := "hunter2pass", key_mgmt := "WPA-PSK" }
    (by decide) (by decide) (by decide) (by decide) (by decide)

end CalmOrb